import Mathlib

/-!
Shallow embedding of `atom/browser/net/request_context_factory.cc` from the
electron repository: the network request-context builder
(`AtomMainRequestContextFactory`) and its helpers
(`NoCacheBackend`, `CreateHttpCacheBackendFactory`,
`CreateURLRequestJobFactory`), together with the cookie-change
redispatch path.

Conventions of the embedding:
- `base::FilePath` is a `String`; `Append` adds a `/`-separated component.
- protocol handlers and request interceptors are opaque values identified
  structurally (`ProtocolHandler` constructors; interceptors are `Nat` ids).
- the process command line is a record of the switches the file reads:
  boolean switches are `Bool` (presence), value switches are `Option String`
  (`none` = switch absent); `GetSwitchValueASCII` on an absent switch
  returns the empty string, as in `base::CommandLine`.
- external library calls (`net::`, `content::`, `base::`) are modelled at
  their interface boundary, as the spec treats them.
-/

namespace RequestContextFactory

/-- net::ERR_FAILED, the error code returned by NoCacheBackend::CreateBackend. -/
def netErrFailed : Int := -2

/-- net::OK. -/
def netOK : Int := 0

/-- The switches `request_context_factory.cc` reads from
`base::CommandLine::ForCurrentProcess()`. -/
structure CommandLine where
  disableHttpCache : Bool
  diskCacheSize : Option String
  hostResolverRules : Option String
  noProxyServer : Bool
  proxyServer : Option String
  proxyBypassList : Option String
  proxyPacUrl : Option String
  authServerWhitelist : Option String
  authNegotiateDelegateWhitelist : Option String
  disableHttp2 : Bool
  ignoreCertificateErrors : Bool
  hostRules : Option String
  deriving DecidableEq

/-- `GetSwitchValueASCII`: the value of a switch, empty string when absent. -/
def getSwitchValueASCII (v : Option String) : String := v.getD ""

/-- `base::StringToInt` as used at the disk-cache-size switch: best-effort
parse, the output variable having been initialised to 0. -/
def stringToInt (s : String) : Int := (s.toInt?).getD 0

/-- The cache backend factory selected by the builder: `NoCacheBackend`
(defined in this file), `net::HttpCache::DefaultBackend` rooted at a disk
path, or `net::HttpCache::DefaultBackend::InMemory`. -/
inductive BackendFactory where
  | noCache
  | defaultDisk (cachePath : String) (maxSize : Int)
  | inMemory (maxBytes : Nat)
  deriving DecidableEq

/-- Result code of `CreateBackend` on each selected factory.
`noCache` is `NoCacheBackend::CreateBackend` from the source: it always
returns `net::ERR_FAILED`. Modelled from the spec for the other two: the
disk and in-memory backends belong to the external cache storage engine,
which the spec treats as an opaque collaborator whose creation succeeds. -/
def BackendFactory.createBackend : BackendFactory → Int
  | .noCache => netErrFailed
  | .defaultDisk _ _ => netOK
  | .inMemory _ => netOK

/-- `CreateHttpCacheBackendFactory` (lines 80–96): NoCacheBackend when the
cache is disabled by flag or by the --disable-http-cache switch, otherwise a
disk-backed default backend at `<base_path>/Cache` sized from
--disk-cache-size. -/
def CreateHttpCacheBackendFactory (cmd : CommandLine) (use_cache : Bool)
    (base_path : String) : BackendFactory :=
  if !use_cache || cmd.disableHttpCache then
    BackendFactory.noCache
  else
    BackendFactory.defaultDisk (base_path ++ "/Cache")
      (stringToInt (getSwitchValueASCII cmd.diskCacheSize))

/-- The protocol handlers the job factory can hold: externally supplied
handlers (opaque, identified by a tag) and the built-ins registered by
`CreateURLRequestJobFactory`. -/
inductive ProtocolHandler where
  | external (id : Nat)
  | about
  | data
  | asar
  | http (scheme : String)
  | ftp
  deriving DecidableEq

/-- `AtomURLRequestJobFactory`: the scheme dispatch table. Entries are kept
as an association list, first match wins. -/
structure AtomURLRequestJobFactory where
  handlers : List (String × ProtocolHandler)
  deriving DecidableEq

/-- First-match association-list lookup (the map access of the dispatch
table). -/
def lookupHandler : List (String × ProtocolHandler) → String → Option ProtocolHandler
  | [], _ => none
  | (k, h) :: rest, s => if s = k then some h else lookupHandler rest s

/-- Modelled from the spec: `AtomURLRequestJobFactory::SetProtocolHandler`
is declared in `atom_url_request_job_factory.h` but its body is not in this
file; the spec states that `register(scheme, handler)` fails (silently
ignored) when the scheme is already registered. -/
def setProtocolHandler (jf : AtomURLRequestJobFactory) (scheme : String)
    (h : ProtocolHandler) : AtomURLRequestJobFactory :=
  if (lookupHandler jf.handlers scheme).isSome then jf
  else ⟨(scheme, h) :: jf.handlers⟩

/-- `resolve(scheme)`: the handler the dispatch table picks for a scheme. -/
def AtomURLRequestJobFactory.resolve (jf : AtomURLRequestJobFactory)
    (scheme : String) : Option ProtocolHandler :=
  lookupHandler jf.handlers scheme

/-- The scheme constants of `url::` used by `CreateURLRequestJobFactory`. -/
def builtinSchemes : List String :=
  ["about", "data", "file", "http", "https", "ws", "wss", "ftp"]

/-- `CreateURLRequestJobFactory` (lines 98–136): install the externally
supplied handlers first, clear the input map, then register the built-in
handlers for about, data, file, http, https, ws, wss and ftp. Returns the
built factory together with the (cleared) input map. -/
def CreateURLRequestJobFactory
    (protocol_handlers : List (String × ProtocolHandler)) :
    AtomURLRequestJobFactory × List (String × ProtocolHandler) :=
  let jf : AtomURLRequestJobFactory := ⟨[]⟩
  let jf := protocol_handlers.foldl (fun jf p => setProtocolHandler jf p.1 p.2) jf
  let jf := setProtocolHandler jf "about" ProtocolHandler.about
  let jf := setProtocolHandler jf "data" ProtocolHandler.data
  let jf := setProtocolHandler jf "file" ProtocolHandler.asar
  let jf := setProtocolHandler jf "http" (ProtocolHandler.http "http")
  let jf := setProtocolHandler jf "https" (ProtocolHandler.http "https")
  let jf := setProtocolHandler jf "ws" (ProtocolHandler.http "ws")
  let jf := setProtocolHandler jf "wss" (ProtocolHandler.http "wss")
  let jf := setProtocolHandler jf "ftp" ProtocolHandler.ftp
  (jf, [])

/-- `net::URLRequestJobFactory` values occurring in `Create`: the concrete
`AtomURLRequestJobFactory` or a `net::URLRequestInterceptingJobFactory`
wrapping an inner factory with one interceptor (interceptors are opaque,
identified by a `Nat`). -/
inductive URLRequestJobFactory where
  | atom (jf : AtomURLRequestJobFactory)
  | intercepting (inner : URLRequestJobFactory) (interceptor : Nat)
  deriving DecidableEq

/-- The order in which a request consults the interceptor layers: outermost
wrapper first, ending at the base dispatch table. -/
def consultOrder : URLRequestJobFactory → List Nat
  | .atom _ => []
  | .intercepting inner i => i :: consultOrder inner

/-- The dispatch table at the bottom of a wrapped factory. -/
def baseTable : URLRequestJobFactory → AtomURLRequestJobFactory
  | .atom jf => jf
  | .intercepting inner _ => baseTable inner

/-- The interceptor loop of `Create` (lines 374–384): when the interceptor
list is non-empty, iterate it in reverse order (`rbegin`..`rend`), each step
replacing the top factory by an intercepting factory wrapping it. -/
def wrapInterceptors (base : URLRequestJobFactory) (interceptors : List Nat) :
    URLRequestJobFactory :=
  if interceptors.isEmpty then base
  else interceptors.reverse.foldl
    (fun top i => URLRequestJobFactory.intercepting top i) base

/-- The system proxy-config source created by
`net::ProxyResolutionService::CreateSystemProxyConfigService` in the
constructor (opaque collaborator). -/
inductive ProxyConfigService where
  | system
  deriving DecidableEq

/-- `net::ProxyConfig` as populated by `Create`: proxy rules and bypass
rules are kept as the strings handed to `ParseFromString` (parsing is an
external collaborator), plus the custom PAC URL and its mandatory flag. -/
structure ProxyConfig where
  proxy_rules : String
  bypass_rules : String
  pac_url : Option String
  pac_mandatory : Bool
  deriving DecidableEq

/-- The proxy resolution service installed into storage: direct, fixed from
a config, or system-resolver-backed consuming a captured config source. -/
inductive ProxyResolutionService where
  | direct
  | fixed (config : ProxyConfig)
  | usingSystemResolver (source : ProxyConfigService)
  deriving DecidableEq

/-- The proxy branch of `Create` (lines 259–281): --no-proxy-server wins,
then --proxy-server (with --proxy-bypass-list), then --proxy-pac-url
(mandatory PAC), else the system resolver consuming the captured source. -/
def selectProxyService (cmd : CommandLine) (captured : ProxyConfigService) :
    ProxyResolutionService :=
  if cmd.noProxyServer then
    ProxyResolutionService.direct
  else if cmd.proxyServer.isSome then
    ProxyResolutionService.fixed
      ⟨getSwitchValueASCII cmd.proxyServer,
       getSwitchValueASCII cmd.proxyBypassList, none, false⟩
  else if cmd.proxyPacUrl.isSome then
    ProxyResolutionService.fixed
      ⟨"", "", some (getSwitchValueASCII cmd.proxyPacUrl), true⟩
  else
    ProxyResolutionService.usingSystemResolver captured

/-- `net::HttpAuthPreferences` as built by `Create` (lines 283–306). -/
structure HttpAuthPreferences where
  auth_schemes : List String
  server_whitelist : Option String
  delegate_whitelist : Option String
  deriving DecidableEq

/-- The auth-preferences construction of `Create`: the scheme vector is
basic, digest, ntlm, negotiate; the two whitelists are set only when the
corresponding switch is present. -/
def buildHttpAuthPreferences (cmd : CommandLine) : HttpAuthPreferences :=
  let schemes := ["basic", "digest", "ntlm", "negotiate"]
  let prefs : HttpAuthPreferences := ⟨schemes, none, none⟩
  let prefs :=
    if cmd.authServerWhitelist.isSome then
      { prefs with server_whitelist := some (getSwitchValueASCII cmd.authServerWhitelist) }
    else prefs
  let prefs :=
    if cmd.authNegotiateDelegateWhitelist.isSome then
      { prefs with
          delegate_whitelist := some (getSwitchValueASCII cmd.authNegotiateDelegateWhitelist) }
    else prefs
  prefs

/-- `net::CookieChangeCause` (external enum consumed by the cookie
notification path). -/
inductive CookieChangeCause where
  | inserted
  | explicitDeletion
  | unknownDeletion
  | overwrite
  | expired
  | evicted
  | expiredOverwrite
  deriving DecidableEq, BEq

/-- `CookieDetails` as constructed in `NotifyCookieChange` (line 193): the
cookie (kept as an opaque string), the removed flag, and the cause. -/
structure CookieDetails where
  cookie : String
  removed : Bool
  cause : CookieChangeCause
  deriving DecidableEq

/-- The state of an `AtomMainRequestContextFactory`: the configuration
snapshot captured by the constructor plus the liveness of the two weak
references involved in the cookie notification path
(`browser_context_` and `weak_ptr_factory_`). -/
structure FactoryState where
  base_path : String
  in_memory : Bool
  use_cache : Bool
  user_agent : String
  cookieable_schemes : List String
  protocol_handlers : List (String × ProtocolHandler)
  request_interceptors : List Nat
  browser_context_valid : Bool
  proxy_config_service : ProxyConfigService
  weak_ptrs_valid : Bool
  deriving DecidableEq

/-- The constructor (lines 140–172): captures the configuration, swaps the
protocol-handler map in, and eagerly creates the system proxy-config
service on the UI thread; the weak-pointer factory starts valid. -/
def mkFactory (path : String) (in_memory use_cache : Bool)
    (user_agent : String) (cookieable_schemes : List String)
    (protocol_handlers : List (String × ProtocolHandler))
    (request_interceptors : List Nat) (browser_context_valid : Bool) :
    FactoryState :=
  { base_path := path
    in_memory := in_memory
    use_cache := use_cache
    user_agent := user_agent
    cookieable_schemes := cookieable_schemes
    protocol_handlers := protocol_handlers
    request_interceptors := request_interceptors
    browser_context_valid := browser_context_valid
    proxy_config_service := ProxyConfigService.system
    weak_ptrs_valid := true }

/-- The destructor (lines 174–176): `weak_ptr_factory_.InvalidateWeakPtrs()`. -/
def destructor (st : FactoryState) : FactoryState :=
  { st with weak_ptrs_valid := false }

/-- `NotifyCookieChange` (lines 189–199), running on the UI thread: build
`CookieDetails` with removed = !(cause == INSERTED) and deliver it to the
browser context only when the `browser_context_` weak pointer is still
valid; `none` means no notification reaches the profile. -/
def NotifyCookieChange (st : FactoryState) (cookie : String)
    (cause : CookieChangeCause) : Option CookieDetails :=
  let details : CookieDetails :=
    ⟨cookie, !(cause == CookieChangeCause.inserted), cause⟩
  if st.browser_context_valid then some details else none

/-- The redispatch of `OnCookieChanged` (lines 178–187): the task posted to
the UI thread is bound to `weak_ptr_factory_.GetWeakPtr()`, so by
`base::WeakPtr` semantics (and as the spec states) it runs
`NotifyCookieChange` only while the factory's weak pointers are valid and
is a no-op after `InvalidateWeakPtrs`. -/
def cookieChangeDelivery (st : FactoryState) (cookie : String)
    (cause : CookieChangeCause) : Option CookieDetails :=
  if st.weak_ptrs_valid then NotifyCookieChange st cookie cause else none

/-- The parts of the served `net::URLRequestContext` the claims are about,
as wired by `Create`. -/
structure URLRequestContext where
  cookie_path : String
  cookieable_schemes : List String
  proxy_service : ProxyResolutionService
  auth_preferences : HttpAuthPreferences
  backend : BackendFactory
  job_factory : URLRequestJobFactory
  deriving DecidableEq

/-- `AtomMainRequestContextFactory::Create` (lines 201–389): cookie path
(empty when in-memory), proxy service by switch priority, auth
preferences, cache backend (in-memory wins over the cache flags), job
factory built from the drained handler map, wrapped by the interceptors in
reverse order; the interceptor list is cleared when non-empty. Returns the
served context together with the factory state after the call. -/
def Create (st : FactoryState) (cmd : CommandLine) :
    URLRequestContext × FactoryState :=
  let cookie_path := if st.in_memory then "" else st.base_path ++ "/Cookies"
  let proxy_service := selectProxyService cmd st.proxy_config_service
  let prefs := buildHttpAuthPreferences cmd
  let backend :=
    if st.in_memory then BackendFactory.inMemory 0
    else CreateHttpCacheBackendFactory cmd st.use_cache st.base_path
  let jfPair := CreateURLRequestJobFactory st.protocol_handlers
  let top_job_factory :=
    wrapInterceptors (URLRequestJobFactory.atom jfPair.1) st.request_interceptors
  let interceptors_after :=
    if st.request_interceptors.isEmpty then st.request_interceptors else []
  (⟨cookie_path, st.cookieable_schemes, proxy_service, prefs, backend,
    top_job_factory⟩,
   { st with protocol_handlers := jfPair.2,
             request_interceptors := interceptors_after })

/-! Helper lemmas about the dispatch table and the interceptor chain. -/

theorem lookupHandler_set (jf : AtomURLRequestJobFactory) (k : String)
    (h : ProtocolHandler) (s : String) :
    lookupHandler (setProtocolHandler jf k h).handlers s
      = if s = k then (lookupHandler jf.handlers s).or (some h)
        else lookupHandler jf.handlers s := by
  unfold setProtocolHandler
  rcases hk : lookupHandler jf.handlers k with _ | x
  · simp only [hk, Option.isSome_none, Bool.false_eq_true, if_false]
    by_cases hs : s = k
    · subst hs; simp [lookupHandler, hk]
    · simp [lookupHandler, hs]
  · simp only [hk, Option.isSome_some, if_true]
    by_cases hs : s = k
    · subst hs; simp [hk]
    · simp [hs]

theorem lookupHandler_foldl (m : List (String × ProtocolHandler)) :
    ∀ (jf : AtomURLRequestJobFactory) (s : String),
      lookupHandler (m.foldl (fun jf p => setProtocolHandler jf p.1 p.2) jf).handlers s
        = (lookupHandler jf.handlers s).or (lookupHandler m s) := by
  induction m with
  | nil => intro jf s; simp [lookupHandler]
  | cons p rest ih =>
    intro jf s
    rcases p with ⟨k, v⟩
    rw [List.foldl_cons, ih, lookupHandler_set]
    show _ = (lookupHandler jf.handlers s).or (if s = k then some v else lookupHandler rest s)
    by_cases hs : s = k
    · rw [if_pos hs, if_pos hs]
      rcases lookupHandler jf.handlers s with _ | x <;> simp
    · rw [if_neg hs, if_neg hs]

theorem consultOrder_foldl (r : List Nat) :
    ∀ b : URLRequestJobFactory,
      consultOrder (r.foldl (fun top i => URLRequestJobFactory.intercepting top i) b)
        = r.reverse ++ consultOrder b := by
  induction r with
  | nil => intro b; simp
  | cons i r ih =>
    intro b
    rw [List.foldl_cons, ih]
    simp [consultOrder]

theorem baseTable_foldl (r : List Nat) :
    ∀ b : URLRequestJobFactory,
      baseTable (r.foldl (fun top i => URLRequestJobFactory.intercepting top i) b)
        = baseTable b := by
  induction r with
  | nil => intro b; rfl
  | cons i r ih =>
    intro b
    rw [List.foldl_cons, ih]
    rfl

theorem consultOrder_wrapInterceptors (b : URLRequestJobFactory) (l : List Nat) :
    consultOrder (wrapInterceptors b l) = l ++ consultOrder b := by
  unfold wrapInterceptors
  rcases l with _ | ⟨i, l⟩
  · simp
  · rw [if_neg (by simp), consultOrder_foldl]
    simp

theorem baseTable_wrapInterceptors (b : URLRequestJobFactory) (l : List Nat) :
    baseTable (wrapInterceptors b l) = baseTable b := by
  unfold wrapInterceptors
  rcases l with _ | ⟨i, l⟩
  · simp
  · rw [if_neg (by simp), baseTable_foldl]

/-- The handler `CreateURLRequestJobFactory` registers as a built-in for a
scheme (none for schemes outside the built-in set). -/
def builtinHandlerFor (s : String) : Option ProtocolHandler :=
  if s = "about" then some ProtocolHandler.about
  else if s = "data" then some ProtocolHandler.data
  else if s = "file" then some ProtocolHandler.asar
  else if s = "http" then some (ProtocolHandler.http "http")
  else if s = "https" then some (ProtocolHandler.http "https")
  else if s = "ws" then some (ProtocolHandler.http "ws")
  else if s = "wss" then some (ProtocolHandler.http "wss")
  else if s = "ftp" then some ProtocolHandler.ftp
  else none

/-- The built-in registrations of `CreateURLRequestJobFactory`, in program
order; the registration chain of the function is definitionally a left fold
of `setProtocolHandler` over this list. -/
def builtinRegistrations : List (String × ProtocolHandler) :=
  [("about", ProtocolHandler.about),
   ("data", ProtocolHandler.data),
   ("file", ProtocolHandler.asar),
   ("http", ProtocolHandler.http "http"),
   ("https", ProtocolHandler.http "https"),
   ("ws", ProtocolHandler.http "ws"),
   ("wss", ProtocolHandler.http "wss"),
   ("ftp", ProtocolHandler.ftp)]

/-- Characterisation of the dispatch table built by
`CreateURLRequestJobFactory`: the externally supplied handler wins, the
built-in fills in otherwise. -/
theorem resolve_create (m : List (String × ProtocolHandler)) (s : String) :
    (CreateURLRequestJobFactory m).1.resolve s
      = (lookupHandler m s).or (builtinHandlerFor s) := by
  have hmain :
      (CreateURLRequestJobFactory m).1.resolve s
        = lookupHandler
            (builtinRegistrations.foldl (fun jf p => setProtocolHandler jf p.1 p.2)
              (m.foldl (fun jf p => setProtocolHandler jf p.1 p.2) ⟨[]⟩)).handlers s := by
    simp only [CreateURLRequestJobFactory, AtomURLRequestJobFactory.resolve,
      builtinRegistrations, List.foldl_cons, List.foldl_nil]
  rw [hmain, lookupHandler_foldl, lookupHandler_foldl]
  have hb : lookupHandler builtinRegistrations s = builtinHandlerFor s := rfl
  rw [hb]
  show ((lookupHandler [] s).or (lookupHandler m s)).or (builtinHandlerFor s) = _
  simp [lookupHandler]

/-- Concrete inputs used by the witness theorems. -/
def cmdNone : CommandLine :=
  ⟨false, none, none, false, none, none, none, none, none, false, false, none⟩

def cmdDisableCache : CommandLine :=
  ⟨true, none, none, false, none, none, none, none, none, false, false, none⟩

def cmdNoProxyAndServer : CommandLine :=
  ⟨false, none, none, true, some "http=proxy:80", some "local", none,
   none, none, false, false, none⟩

def cmdProxyServer : CommandLine :=
  ⟨false, none, none, false, some "http=proxy:80", some "local", none,
   none, none, false, false, none⟩

def cmdPac : CommandLine :=
  ⟨false, none, none, false, none, none, some "http://pac.example/x.pac",
   none, none, false, false, none⟩

def stInterceptors : FactoryState :=
  mkFactory "/profile" false true "ua" ["custom"]
    [("custom", ProtocolHandler.external 0)] [7, 3, 5] true

def stNoInterceptors : FactoryState :=
  mkFactory "/profile" false true "ua" [] [] [] true

def stInMemoryNoCache : FactoryState :=
  mkFactory "/profile" true false "ua" [] [] [] true

def stInMemory : FactoryState :=
  mkFactory "/profile" true true "ua" [] [] [] true

def stDiskNoCache : FactoryState :=
  mkFactory "/profile" false false "ua" [] [] [] true

/-- C1: Create() wraps the dispatch table by iterating the interceptor
sequence in reverse order, so the pipeline consults i1 first, then i2, …,
then in, then the base dispatch table; an empty sequence leaves the bare
dispatch table. -/
theorem interceptor_chain_order (st : FactoryState) (cmd : CommandLine) :
    consultOrder (Create st cmd).1.job_factory = st.request_interceptors
    ∧ baseTable (Create st cmd).1.job_factory
        = (CreateURLRequestJobFactory st.protocol_handlers).1
    ∧ (st.request_interceptors = [] →
        (Create st cmd).1.job_factory
          = URLRequestJobFactory.atom
              (CreateURLRequestJobFactory st.protocol_handlers).1) := by
  refine ⟨?_, ?_, ?_⟩
  · show consultOrder
        (wrapInterceptors
          (URLRequestJobFactory.atom (CreateURLRequestJobFactory st.protocol_handlers).1)
          st.request_interceptors) = _
    rw [consultOrder_wrapInterceptors]
    simp [consultOrder]
  · show baseTable
        (wrapInterceptors
          (URLRequestJobFactory.atom (CreateURLRequestJobFactory st.protocol_handlers).1)
          st.request_interceptors) = _
    rw [baseTable_wrapInterceptors]
    rfl
  · intro hnil
    show wrapInterceptors
        (URLRequestJobFactory.atom (CreateURLRequestJobFactory st.protocol_handlers).1)
        st.request_interceptors = _
    rw [hnil]
    rfl

theorem interceptor_chain_order_witness :
    consultOrder (Create stInterceptors cmdNone).1.job_factory = [7, 3, 5]
    ∧ (Create stNoInterceptors cmdNone).1.job_factory
        = URLRequestJobFactory.atom
            (CreateURLRequestJobFactory stNoInterceptors.protocol_handlers).1 :=
  ⟨(interceptor_chain_order stInterceptors cmdNone).1,
   (interceptor_chain_order stNoInterceptors cmdNone).2.2 rfl⟩

/-- C2: for every scheme not in the externally supplied handler map, the
built dispatch table resolves it iff the scheme is one of about, data,
file, http, https, ws, wss, ftp. -/
theorem builtin_scheme_resolution (m : List (String × ProtocolHandler))
    (s : String) (h : lookupHandler m s = none) :
    ((CreateURLRequestJobFactory m).1.resolve s).isSome = true
      ↔ s ∈ builtinSchemes := by
  rw [resolve_create, h, Option.none_or]
  unfold builtinHandlerFor builtinSchemes
  split_ifs <;> simp_all

theorem builtin_scheme_resolution_witness :
    (((CreateURLRequestJobFactory []).1.resolve "about").isSome = true)
    ∧ ¬ (((CreateURLRequestJobFactory []).1.resolve "gopher").isSome = true) :=
  ⟨(builtin_scheme_resolution [] "about" rfl).mpr (by decide),
   fun hc => by
     have := (builtin_scheme_resolution [] "gopher" rfl).mp hc
     simp [builtinSchemes] at this⟩

/-- C3: for every scheme present in the externally supplied handler map, the
installed handler is the external one; the later built-in registration for
the same scheme does not replace it. -/
theorem external_handler_precedence (m : List (String × ProtocolHandler))
    (s : String) (h : ProtocolHandler) (hm : lookupHandler m s = some h) :
    (CreateURLRequestJobFactory m).1.resolve s = some h := by
  rw [resolve_create, hm]
  rfl

theorem external_handler_precedence_witness :
    (CreateURLRequestJobFactory [("http", ProtocolHandler.external 4)]).1.resolve "http"
      = some (ProtocolHandler.external 4) :=
  external_handler_precedence [("http", ProtocolHandler.external 4)] "http"
    (ProtocolHandler.external 4) rfl

/-- C4, as stated, is false: with in_memory=true and use_cache=false, Create
selects the in-memory backend, whose create succeeds, not the always-failing
NoCacheBackend. -/
theorem cache_disable_claim_counterexample :
    stInMemoryNoCache.use_cache = false
    ∧ (Create stInMemoryNoCache cmdNone).1.backend = BackendFactory.inMemory 0
    ∧ BackendFactory.createBackend (Create stInMemoryNoCache cmdNone).1.backend
        ≠ netErrFailed := by
  refine ⟨rfl, rfl, ?_⟩
  decide

/-- C4 (amended): whenever in_memory=false and (use_cache=false or the
disable-http-cache switch is set), the selected backend is NoCacheBackend,
whose create deterministically returns net::ERR_FAILED on every call;
construction still succeeds (Create is total). -/
theorem cache_disabled_backend_always_fails (st : FactoryState)
    (cmd : CommandLine) (hmem : st.in_memory = false)
    (h : st.use_cache = false ∨ cmd.disableHttpCache = true) :
    (Create st cmd).1.backend = BackendFactory.noCache
    ∧ BackendFactory.createBackend (Create st cmd).1.backend = netErrFailed := by
  have hb : (Create st cmd).1.backend
      = CreateHttpCacheBackendFactory cmd st.use_cache st.base_path := by
    simp [Create, hmem]
  rw [hb]
  unfold CreateHttpCacheBackendFactory
  rcases h with h | h
  · rw [h]
    simp [BackendFactory.createBackend]
  · rw [h]
    simp [BackendFactory.createBackend]

theorem cache_disabled_backend_always_fails_witness :
    (Create stDiskNoCache cmdNone).1.backend = BackendFactory.noCache
    ∧ BackendFactory.createBackend (Create stDiskNoCache cmdNone).1.backend
        = netErrFailed :=
  cache_disabled_backend_always_fails stDiskNoCache cmdNone rfl (Or.inl rfl)

/-- C5: with in_memory=true, Create selects the in-memory cache backend and
an in-memory (empty-path) cookie store, regardless of the use_cache flag
and of the cache disable switch. -/
theorem in_memory_selection (st : FactoryState) (cmd : CommandLine)
    (hmem : st.in_memory = true) :
    (Create st cmd).1.backend = BackendFactory.inMemory 0
    ∧ (Create st cmd).1.cookie_path = "" := by
  constructor
  · simp [Create, hmem]
  · simp [Create, hmem]

theorem in_memory_selection_witness :
    (Create stInMemory cmdDisableCache).1.backend = BackendFactory.inMemory 0
    ∧ (Create stInMemory cmdDisableCache).1.cookie_path = "" :=
  in_memory_selection stInMemory cmdDisableCache rfl

/-- C6: proxy selection is a first-match priority chain: no-proxy wins even
over a present proxy-server switch, then proxy-server (with the supplied
bypass list), then the mandatory PAC url, else the system resolver
consuming the proxy-config source captured at builder construction. -/
theorem proxy_selection_priority (st : FactoryState) (cmd : CommandLine) :
    (cmd.noProxyServer = true →
      (Create st cmd).1.proxy_service = ProxyResolutionService.direct)
    ∧ (cmd.noProxyServer = false → cmd.proxyServer.isSome = true →
      (Create st cmd).1.proxy_service
        = ProxyResolutionService.fixed
            ⟨getSwitchValueASCII cmd.proxyServer,
             getSwitchValueASCII cmd.proxyBypassList, none, false⟩)
    ∧ (cmd.noProxyServer = false → cmd.proxyServer = none →
        cmd.proxyPacUrl.isSome = true →
      (Create st cmd).1.proxy_service
        = ProxyResolutionService.fixed
            ⟨"", "", some (getSwitchValueASCII cmd.proxyPacUrl), true⟩)
    ∧ (cmd.noProxyServer = false → cmd.proxyServer = none →
        cmd.proxyPacUrl = none →
      (Create st cmd).1.proxy_service
        = ProxyResolutionService.usingSystemResolver st.proxy_config_service)
    ∧ (∀ (p : String) (im uc : Bool) (ua : String) (cs : List String)
        (ph : List (String × ProtocolHandler)) (ri : List Nat) (bc : Bool),
      (mkFactory p im uc ua cs ph ri bc).proxy_config_service
        = ProxyConfigService.system) := by
  refine ⟨?_, ?_, ?_, ?_, ?_⟩
  · intro h1
    simp [Create, selectProxyService, h1]
  · intro h1 h2
    simp [Create, selectProxyService, h1, h2]
  · intro h1 h2 h3
    simp [Create, selectProxyService, h1, h2, h3]
  · intro h1 h2 h3
    simp [Create, selectProxyService, h1, h2, h3]
  · intro p im uc ua cs ph ri bc
    rfl

theorem proxy_selection_priority_witness :
    (Create stNoInterceptors cmdNoProxyAndServer).1.proxy_service
        = ProxyResolutionService.direct
    ∧ (Create stNoInterceptors cmdProxyServer).1.proxy_service
        = ProxyResolutionService.fixed ⟨"http=proxy:80", "local", none, false⟩
    ∧ (Create stNoInterceptors cmdPac).1.proxy_service
        = ProxyResolutionService.fixed
            ⟨"", "", some "http://pac.example/x.pac", true⟩
    ∧ (Create stNoInterceptors cmdNone).1.proxy_service
        = ProxyResolutionService.usingSystemResolver ProxyConfigService.system :=
  ⟨(proxy_selection_priority stNoInterceptors cmdNoProxyAndServer).1 rfl,
   (proxy_selection_priority stNoInterceptors cmdProxyServer).2.1 rfl rfl,
   (proxy_selection_priority stNoInterceptors cmdPac).2.2.1 rfl rfl rfl,
   (proxy_selection_priority stNoInterceptors cmdNone).2.2.2.1 rfl rfl rfl⟩

/-- C7: a cookie-change event redispatched while the builder is alive
carries the cookie value and a cause whose removed flag is true exactly
when the cause is not inserted; it reaches the profile iff the weak
browser-context reference is still valid, and is dropped silently
otherwise. -/
theorem cookie_change_notification (st : FactoryState) (cookie : String)
    (cause : CookieChangeCause) (halive : st.weak_ptrs_valid = true) :
    (∀ d : CookieDetails, cookieChangeDelivery st cookie cause = some d →
        d.cookie = cookie ∧ d.cause = cause
        ∧ (d.removed = true ↔ cause ≠ CookieChangeCause.inserted))
    ∧ ((cookieChangeDelivery st cookie cause).isSome = true
        ↔ st.browser_context_valid = true) := by
  have hd : cookieChangeDelivery st cookie cause
      = NotifyCookieChange st cookie cause := by
    simp [cookieChangeDelivery, halive]
  constructor
  · intro d hdd
    rw [hd] at hdd
    unfold NotifyCookieChange at hdd
    cases hb : st.browser_context_valid
    · rw [hb] at hdd
      simp at hdd
    · rw [hb] at hdd
      simp at hdd
      subst hdd
      refine ⟨rfl, rfl, ?_⟩
      show (!(cause == CookieChangeCause.inserted)) = true
          ↔ cause ≠ CookieChangeCause.inserted
      cases cause <;> decide
  · rw [hd]
    unfold NotifyCookieChange
    cases hb : st.browser_context_valid <;> simp [hb]

theorem cookie_change_notification_witness :
    ((CookieDetails.mk "k=v" true CookieChangeCause.evicted).removed = true
      ↔ CookieChangeCause.evicted ≠ CookieChangeCause.inserted)
    ∧ ((cookieChangeDelivery stNoInterceptors "k=v" CookieChangeCause.evicted).isSome
        = true ↔ stNoInterceptors.browser_context_valid = true) :=
  ⟨((cookie_change_notification stNoInterceptors "k=v" CookieChangeCause.evicted
      rfl).1 ⟨"k=v", true, CookieChangeCause.evicted⟩ (by decide)).2.2,
   (cookie_change_notification stNoInterceptors "k=v" CookieChangeCause.evicted
      rfl).2⟩

/-- C8: after the destructor has invalidated the builder's weak pointers,
every redispatched cookie-change notification is a no-op: nothing reaches
the owning profile. -/
theorem teardown_drops_notifications (st : FactoryState) (cookie : String)
    (cause : CookieChangeCause) :
    cookieChangeDelivery (destructor st) cookie cause = none := by
  simp [cookieChangeDelivery, destructor]

/-- C9: after Create, both ownership-transfer collections held by the
builder (the scheme-handler map and the interceptor list) are empty. -/
theorem collections_drained_after_create (st : FactoryState)
    (cmd : CommandLine) :
    (Create st cmd).2.protocol_handlers = []
    ∧ (Create st cmd).2.request_interceptors = [] := by
  constructor
  · rfl
  · show (if st.request_interceptors.isEmpty then st.request_interceptors else [])
        = []
    cases h : st.request_interceptors <;> simp [h]

/-- C10: the auth-handler preferences built by Create list exactly the four
schemes basic, digest, ntlm, negotiate, for every configuration and switch
state; switches only affect the two whitelists. -/
theorem auth_schemes_fixed (st : FactoryState) (cmd : CommandLine) :
    (Create st cmd).1.auth_preferences.auth_schemes
      = ["basic", "digest", "ntlm", "negotiate"] := by
  show (buildHttpAuthPreferences cmd).auth_schemes = _
  unfold buildHttpAuthPreferences
  split_ifs <;> rfl

end RequestContextFactory
